import Mathlib

/-!
# Verification of `weather.py`

A shallow embedding of the weather-summary module. Python floats are
modelled as rationals (`ℚ`); every input exercised by the specification is
an exact decimal, so rational arithmetic agrees with the source on all of
them. Python exceptions (ValueError, ZeroDivisionError, IndexError,
StopIteration) are modelled uniformly as `Option.none`: a raised exception
aborts the enclosing call with no partial result, exactly as `none`
propagates through the `Option` monad here.
-/

namespace Weather

/-- `round` of Python at integer precision: nearest integer, ties to even. -/
def roundHalfEven (q : ℚ) : ℤ :=
  let f := ⌊q⌋
  if q - f < 1/2 then f
  else if (1:ℚ)/2 < q - f then f + 1
  else if f % 2 = 0 then f else f + 1

/-- Python `round(x, 1)`: round to one decimal place, ties to even. -/
def pyRound1 (q : ℚ) : ℚ := (roundHalfEven (q * 10) : ℚ) / 10

/-- `convert_f_to_c` from `weather.py`:
`temp_in_celcius = (float(temp_in_fahrenheit)-32)*(5/9); return round(temp_in_celcius,1)`. -/
def convert_f_to_c (temp_in_fahrenheit : ℚ) : ℚ :=
  pyRound1 ((temp_in_fahrenheit - 32) * (5/9))

/-- Python `min()` over a non-empty list (left fold); the `[]` case is
unreachable behind the emptiness guard of `find_min`. -/
def pyMin (l : List ℚ) : ℚ :=
  match l with
  | [] => 0
  | x :: xs => xs.foldl min x

/-- Python `max()` over a non-empty list, as in `pyMin`. -/
def pyMax (l : List ℚ) : ℚ :=
  match l with
  | [] => 0
  | x :: xs => xs.foldl max x

/-- The comprehension `[index for index, value in enumerate(l) if value == m]`:
the indices of `l` holding the value `m`, in increasing order. -/
def matchIndices (l : List ℚ) (m : ℚ) : List ℕ :=
  (List.range l.length).filter (fun i => decide (l.get? i = some m))

/-- `find_min` from `weather.py`. The Python `while weather_data:` loop
always returns inside its first iteration (the minimum of a non-empty list
has at least one match), so it is an `if`; on an empty list the function
returns the empty tuple `()`, modelled as `none`. The `< 2` branch is the
forward scan returning the first match; the other branch takes
`min_count[-1]`, the last match. -/
def find_min (weather_data : List ℚ) : Option (ℚ × ℕ) :=
  match weather_data with
  | [] => none
  | _ :: _ =>
    let min_temp := pyMin weather_data
    let min_count := matchIndices weather_data min_temp
    if min_count.length < 2 then
      match min_count.head? with
      | some i => some (min_temp, i)
      | none => none
    else
      some (min_temp, min_count.getLastD 0)

/-- `find_max` from `weather.py`, symmetric to `find_min`. -/
def find_max (weather_data : List ℚ) : Option (ℚ × ℕ) :=
  match weather_data with
  | [] => none
  | _ :: _ =>
    let max_temp := pyMax weather_data
    let max_count := matchIndices weather_data max_temp
    if max_count.length < 2 then
      match max_count.head? with
      | some i => some (max_temp, i)
      | none => none
    else
      some (max_temp, max_count.getLastD 0)

/-- `calculate_mean` from `weather.py`: `sum(data)/len(data)`. On an empty
list Python raises `ZeroDivisionError`, modelled as `none`. -/
def calculate_mean (weather_data : List ℚ) : Option ℚ :=
  match weather_data with
  | [] => none
  | _ :: _ => some (weather_data.sum / weather_data.length)

/-! ## Dates

`convert_date` calls `datetime.fromisoformat` and then
`strftime("%A %d %B %Y")` (full English weekday name, zero-padded day,
full English month name, zero-padded year). `datetime.fromisoformat` is
NOT restricted to calendar dates: it accepts
`YYYY-MM-DD[<sep>HH[:MM[:SS[.fff[fff]]]][(+|-)HH:MM[:SS[.ffffff]]]]`,
where `<sep>` is any single character — so date-plus-time strings such as
`"2021-07-06T00:00:00"` parse successfully and only their date part is
formatted. The model below follows the CPython C accelerator of
Python ≤ 3.10 (the grammar above, with years 1–9999, days validated
against Gregorian month lengths, `hh ≤ 23`, `mm, ss ≤ 59`, fractions of
exactly 3 or 6 digits, and a timezone offset strictly below 24 hours);
Python 3.11 extended `fromisoformat` to further ISO-8601 forms, which this
model does not cover — no theorem below depends on those extra forms.
`ValueError` is modelled as `none`. -/

/-- Numeric value of a digit character. -/
def digitVal (c : Char) : ℕ := c.toNat - 48

/-- The English month names used by `%B`. -/
def monthNames : List String :=
  ["January", "February", "March", "April", "May", "June", "July",
   "August", "September", "October", "November", "December"]

/-- The English weekday names used by `%A`, indexed with `0 = Sunday`. -/
def weekdayNames : List String :=
  ["Sunday", "Monday", "Tuesday", "Wednesday", "Thursday", "Friday", "Saturday"]

/-- Gregorian leap-year rule. -/
def isLeapYear (y : ℕ) : Bool := (y % 4 == 0 && y % 100 != 0) || y % 400 == 0

/-- Number of days in a Gregorian month. -/
def daysInMonth (y m : ℕ) : ℕ :=
  if m = 2 then (if isLeapYear y then 29 else 28)
  else if m = 4 ∨ m = 6 ∨ m = 9 ∨ m = 11 then 30 else 31

/-- Day of the week of a Gregorian date (Sakamoto's method), `0 = Sunday`. -/
def dayOfWeek (y m d : ℕ) : ℕ :=
  let t : List ℕ := [0, 3, 2, 5, 0, 3, 5, 1, 4, 6, 2, 4]
  let z := if m < 3 then y - 1 else y
  (z + z / 4 - z / 100 + z / 400 + t.getD (m - 1) 0 + d) % 7

/-- Value of a digit string read left to right. -/
def digitsVal (l : List Char) : ℕ := l.foldl (fun a c => a * 10 + digitVal c) 0

/-- Two leading digit characters, returning their value and the rest of
the input (`parse_hh_mm_ss_ff`'s two-digit component step). -/
def parse2Digits : List Char → Option (ℕ × List Char)
  | c1 :: c2 :: rest =>
    if c1.isDigit && c2.isDigit then some (digitVal c1 * 10 + digitVal c2, rest) else none
  | _ => none

/-- The fractional-second part after the dot: exactly 3 or 6 digits,
scaled to microseconds (`_parse_hh_mm_ss_ff`). -/
def parseFraction (frac : List Char) : Option ℕ :=
  if frac.all Char.isDigit && frac.length == 3 then some (digitsVal frac * 1000)
  else if frac.all Char.isDigit && frac.length == 6 then some (digitsVal frac)
  else none

/-- `_parse_hh_mm_ss_ff` of the Python library: `HH`, `HH:MM`, `HH:MM:SS`
or `HH:MM:SS.fff[fff]`, consuming the whole input; missing components
default to zero. No range checks here — Python applies them afterwards in
the `time`/`timedelta` constructors. -/
def parseHMSF (l : List Char) : Option (ℕ × ℕ × ℕ × ℕ) :=
  match parse2Digits l with
  | none => none
  | some (hh, rest) =>
    match rest with
    | [] => some (hh, 0, 0, 0)
    | ':' :: rest2 =>
      match parse2Digits rest2 with
      | none => none
      | some (mm, rest3) =>
        match rest3 with
        | [] => some (hh, mm, 0, 0)
        | ':' :: rest4 =>
          match parse2Digits rest4 with
          | none => none
          | some (ss, rest5) =>
            match rest5 with
            | [] => some (hh, mm, ss, 0)
            | '.' :: frac => (parseFraction frac).map (fun f => (hh, mm, ss, f))
            | _ => none
        | _ => none
    | _ => none

/-- Split the time string at the first `+` or `-` (the timezone marker
scan of `parse_isoformat_time`): the time proper, and the offset text
after the sign when one is present. -/
def splitAtSign (l : List Char) : List Char × Option (List Char) :=
  match l.findIdx? (fun c => c == '+' || c == '-') with
  | some i => (l.take i, some (l.drop (i + 1)))
  | none => (l, none)

/-- `_parse_isoformat_time`: at least two characters; the part before any
sign parses as `HH[:MM[:SS[.fff[fff]]]]` with `hh ≤ 23`, `mm, ss ≤ 59`
(the `time` constructor's checks); an offset, when present, is 5, 8 or 15
characters after the sign, parses the same way, and denotes strictly less
than 24 hours (the `timezone` constructor's check). Only validity matters
here: `strftime("%A %d %B %Y")` ignores the time of day. -/
def validTime (l : List Char) : Bool :=
  if l.length < 2 then false
  else
    match splitAtSign l with
    | (timestr, tz) =>
      match parseHMSF timestr with
      | none => false
      | some (hh, mm, ss, _) =>
        if hh ≤ 23 ∧ mm ≤ 59 ∧ ss ≤ 59 then
          match tz with
          | none => true
          | some tzstr =>
            if tzstr.length == 5 || tzstr.length == 8 || tzstr.length == 15 then
              match parseHMSF tzstr with
              | none => false
              | some (th, tm, ts, tf) =>
                decide ((th * 3600 + tm * 60 + ts) * 1000000 + tf < 86400000000)
            else false
        else false

/-- The character-level parser behind `parseISODate`: the first ten
characters must be `YYYY-MM-DD` (year 1–9999 by its four digits and
`MINYEAR = 1`, month and day valid on the Gregorian calendar); anything
following is one arbitrary separator character plus a valid time-of-day
string, which does not affect the returned date. -/
def parseISOChars : List Char → Option (ℕ × ℕ × ℕ)
  | y1 :: y2 :: y3 :: y4 :: h1 :: m1 :: m2 :: h2 :: d1 :: d2 :: rest =>
    if y1.isDigit && y2.isDigit && y3.isDigit && y4.isDigit && (h1 == '-') &&
       m1.isDigit && m2.isDigit && (h2 == '-') && d1.isDigit && d2.isDigit then
      let y := digitVal y1 * 1000 + digitVal y2 * 100 + digitVal y3 * 10 + digitVal y4
      let m := digitVal m1 * 10 + digitVal m2
      let d := digitVal d1 * 10 + digitVal d2
      if 1 ≤ y ∧ 1 ≤ m ∧ m ≤ 12 ∧ 1 ≤ d ∧ d ≤ daysInMonth y m then
        match rest with
        | [] => some (y, m, d)
        | _ :: timeChars => if validTime timeChars then some (y, m, d) else none
      else none
    else none
  | _ => none

/-- `datetime.fromisoformat` as the source uses it, returning the calendar
date of the parsed value; `ValueError` is modelled as `none`. It accepts
strictly more than calendar-date strings: see the section comment. -/
def parseISODate (s : String) : Option (ℕ × ℕ × ℕ) :=
  parseISOChars s.data

/-- Year denoted by positions 0–3 of a string. -/
def isoYearOf (s : String) : ℕ :=
  digitVal (s.data.getD 0 ' ') * 1000 + digitVal (s.data.getD 1 ' ') * 100 +
    digitVal (s.data.getD 2 ' ') * 10 + digitVal (s.data.getD 3 ' ')

/-- Month denoted by positions 5–6 of a string. -/
def isoMonthOf (s : String) : ℕ :=
  digitVal (s.data.getD 5 ' ') * 10 + digitVal (s.data.getD 6 ' ')

/-- Day denoted by positions 8–9 of a string. -/
def isoDayOf (s : String) : ℕ :=
  digitVal (s.data.getD 8 ' ') * 10 + digitVal (s.data.getD 9 ' ')

/-- Stated from the specification's words, independently of the parser: a
well-formed ISO-8601 calendar date string is exactly ten characters
`YYYY-MM-DD` whose month and day are valid on the Gregorian calendar (and
whose year lies in the representable range `1..9999`; four digits bound it
above, and Python's `MINYEAR = 1` excludes year zero). Compared with
`parseISODate`, which is drawn from the source. -/
def isWellFormedISO (s : String) : Prop :=
  s.length = 10 ∧
  (∀ i ∈ [0, 1, 2, 3, 5, 6, 8, 9], (s.data.getD i ' ').isDigit = true) ∧
  s.data.getD 4 ' ' = '-' ∧ s.data.getD 7 ' ' = '-' ∧
  1 ≤ isoYearOf s ∧ 1 ≤ isoMonthOf s ∧ isoMonthOf s ≤ 12 ∧
  1 ≤ isoDayOf s ∧ isoDayOf s ≤ daysInMonth (isoYearOf s) (isoMonthOf s)

instance (s : String) : Decidable (isWellFormedISO s) := by
  unfold isWellFormedISO
  infer_instance

/-- `%d`: day of month, zero-padded to two digits. -/
def pad2 (n : ℕ) : String := if n < 10 then "0" ++ toString n else toString n

/-- `%Y`: year, zero-padded to four digits. -/
def pad4 (n : ℕ) : String :=
  if n < 10 then "000" ++ toString n
  else if n < 100 then "00" ++ toString n
  else if n < 1000 then "0" ++ toString n
  else toString n

/-- `convert_date` from `weather.py`:
`datetime.fromisoformat(iso_string).strftime("%A %d %B %Y")`. -/
def convert_date (iso_string : String) : Option String :=
  (parseISODate iso_string).map (fun ymd =>
    weekdayNames.getD (dayOfWeek ymd.1 ymd.2.1 ymd.2.2) "" ++ " " ++ pad2 ymd.2.2 ++ " " ++
      monthNames.getD (ymd.2.1 - 1) "" ++ " " ++ pad4 ymd.1)

/-! ## Loading

`load_data_from_csv` receives the rows the `csv` reader yields, modelled as
a `List (List String)`: a blank line in the file is the empty row `[]`
(which `if row:` skips). Python `float(...)` on a temperature field is
modelled by `parseFloat` (plain decimal literals with optional sign;
`ValueError` on anything else is `none`). `next(csv_reader)` on a source
with no rows at all raises `StopIteration`, modelled as `none`. -/

/-- Python `float` on an unsigned decimal literal: digits with an optional
point, at least one digit overall (`"41"`, `"41.0"`, `"41."`, `".5"`). -/
def parseUnsigned (l : List Char) : Option ℚ :=
  let intPart := l.takeWhile Char.isDigit
  let rest := l.dropWhile Char.isDigit
  match rest with
  | [] => if intPart.isEmpty then none else some (digitsVal intPart : ℚ)
  | c :: frac =>
    if c == '.' && frac.all Char.isDigit && !(intPart.isEmpty && frac.isEmpty) then
      some ((digitsVal intPart : ℚ) + (digitsVal frac : ℚ) / 10 ^ frac.length)
    else none

/-- Python `float(str)` restricted to plain decimal literals, the only
forms the weather data contains; every other string raises `ValueError`,
modelled as `none`. -/
def parseFloat (s : String) : Option ℚ :=
  match s.data with
  | [] => none
  | c :: rest =>
    if c == '-' then (parseUnsigned rest).map (fun q => -q)
    else if c == '+' then parseUnsigned rest
    else parseUnsigned (c :: rest)

/-- One record of the dataset: date string, minimum and maximum
temperature in Fahrenheit, as built by `load_data_from_csv`. -/
abbrev WeatherRecord := String × ℚ × ℚ

/-- `[row[0], float(row[1]), float(row[2])]` on a non-blank row: an
`IndexError` (row too short) or `ValueError` (non-numeric temperature)
aborts the load, modelled as `none`. -/
def parseRow (row : List String) : Option WeatherRecord :=
  match row.get? 0, (row.get? 1).bind parseFloat, (row.get? 2).bind parseFloat with
  | some d, some mn, some mx => some (d, mn, mx)
  | _, _, _ => none

/-- The per-row contract of the loader: field 0 is the stored date, fields
1 and 2 parse to the stored temperatures. -/
def RowParses (row : List String) (rec : WeatherRecord) : Prop :=
  row.get? 0 = some rec.1 ∧ (row.get? 1).bind parseFloat = some rec.2.1 ∧
    (row.get? 2).bind parseFloat = some rec.2.2

/-- The `for row in csv_reader` loop of `load_data_from_csv`: skip blank
rows, parse the rest in order, abort on the first failure. -/
def loadRows : List (List String) → Option (List WeatherRecord)
  | [] => some []
  | row :: rest =>
    if row.isEmpty then loadRows rest
    else
      match parseRow row with
      | some r => (loadRows rest).map (fun l => r :: l)
      | none => none

/-- `load_data_from_csv` from `weather.py`: `next(csv_reader)` discards the
header row (raising `StopIteration`, modelled `none`, when there is no row
at all), then the row loop builds the record list. -/
def load_data_from_csv (rows : List (List String)) : Option (List WeatherRecord) :=
  match rows with
  | [] => none
  | _ :: rest => loadRows rest

/-! ## Report generation

The f-strings interpolate Python floats with `repr`; every float a report
interpolates has passed through `convert_f_to_c`, so it is an exact
multiple of `0.1` and `repr` prints `<int part>.<one digit>`, which
`showFloat1` reproduces. -/

/-- Python `repr` of a float that is an exact multiple of `0.1`, given as
its value in tenths. -/
def showTenths (t : ℤ) : String :=
  (if t < 0 then "-" else "") ++ toString (t.natAbs / 10) ++ "." ++ toString (t.natAbs % 10)

/-- Rendering of a one-decimal float value in an f-string. -/
def showFloat1 (q : ℚ) : String := showTenths ⌊q * 10⌋

/-- `format_temperature` from `weather.py`: `f"{temp}{DEGREE_SYMBOL}"`. -/
def format_temperature (temp : String) : String := temp ++ "°C"

/-- The f-string of `generate_summary`, parametrised by the values it
interpolates (temperatures still in Fahrenheit, converted in place). -/
def summaryTemplate (n : ℕ) (minv : ℚ) (minDate : String) (maxv : ℚ) (maxDate : String)
    (avgLow avgHigh : ℚ) : String :=
  toString n ++ " Day Overview\n  The lowest temperature will be " ++
    showFloat1 (convert_f_to_c minv) ++ "°C, and will occur on " ++ minDate ++
    ".\n  The highest temperature will be " ++ showFloat1 (convert_f_to_c maxv) ++
    "°C, and will occur on " ++ maxDate ++ ".\n  The average low this week is " ++
    showFloat1 (convert_f_to_c avgLow) ++ "°C.\n  The average high this week is " ++
    showFloat1 (convert_f_to_c avgHigh) ++ "°C.\n"

/-- `generate_summary` from `weather.py`: extract the two temperature
columns, run `find_min` on the min column and `find_max` on the max
column, look the dates up at the returned indices, average each column,
and interpolate into the template. Consuming the empty tuple returned by
`find_min`/`find_max` on an empty dataset raises `IndexError` in Python;
here `none` propagates. -/
def generate_summary (weather_data : List WeatherRecord) : Option String :=
  let min_temp_list := weather_data.map (fun r => r.2.1)
  let max_temp_list := weather_data.map (fun r => r.2.2)
  match find_min min_temp_list, find_max max_temp_list with
  | some mn, some mx =>
    match weather_data.get? mn.2, weather_data.get? mx.2 with
    | some rmin, some rmax =>
      match convert_date rmin.1, convert_date rmax.1,
            calculate_mean min_temp_list, calculate_mean max_temp_list with
      | some dmin, some dmax, some avgl, some avgh =>
        some (summaryTemplate weather_data.length mn.1 dmin mx.1 dmax avgl avgh)
      | _, _, _, _ => none
    | _, _ => none
  | _, _ => none

/-- The block `generate_daily_summary` appends for one record. -/
def dailyBlock (r : WeatherRecord) : Option String :=
  (convert_date r.1).map (fun d =>
    "---- " ++ d ++ " ----\n  Minimum Temperature: " ++
      showFloat1 (convert_f_to_c r.2.1) ++ "°C\n  Maximum Temperature: " ++
      showFloat1 (convert_f_to_c r.2.2) ++ "°C\n\n")

/-- `generate_daily_summary` from `weather.py`: start from `""` and append
one block per record in order; a `ValueError` from `convert_date` aborts
the loop, modelled by the `Option` fold. -/
def generate_daily_summary (weather_data : List WeatherRecord) : Option String :=
  weather_data.foldlM (fun acc r => (dailyBlock r).map (fun b => acc ++ b)) ""

/-! ## Lemmas about the aggregation functions -/

lemma foldl_min_le_init (xs : List ℚ) : ∀ a : ℚ, xs.foldl min a ≤ a := by
  induction xs with
  | nil => intro a; simp
  | cons x t ih => intro a; exact le_trans (ih (min a x)) (min_le_left a x)

lemma foldl_min_le_mem (xs : List ℚ) : ∀ (a x : ℚ), x ∈ xs → xs.foldl min a ≤ x := by
  induction xs with
  | nil => intro a x hx; cases hx
  | cons y t ih =>
    intro a x hx
    rcases List.mem_cons.mp hx with rfl | hx2
    · exact le_trans (foldl_min_le_init t (min a x)) (min_le_right a x)
    · exact ih (min a y) x hx2

lemma foldl_min_mem (xs : List ℚ) : ∀ a : ℚ, xs.foldl min a = a ∨ xs.foldl min a ∈ xs := by
  induction xs with
  | nil => intro a; exact Or.inl rfl
  | cons y t ih =>
    intro a
    rcases ih (min a y) with h | h
    · rcases min_choice a y with h2 | h2
      · exact Or.inl (by simp only [List.foldl]; rw [h, h2])
      · exact Or.inr (List.mem_cons.mpr (Or.inl (by simp only [List.foldl]; rw [h, h2])))
    · exact Or.inr (List.mem_cons.mpr (Or.inr h))

lemma pyMin_le (l : List ℚ) (x : ℚ) (hx : x ∈ l) : pyMin l ≤ x := by
  cases l with
  | nil => cases hx
  | cons a t =>
    rcases List.mem_cons.mp hx with rfl | hx2
    · exact foldl_min_le_init t x
    · exact foldl_min_le_mem t a x hx2

lemma pyMin_mem (l : List ℚ) (h : l ≠ []) : pyMin l ∈ l := by
  cases l with
  | nil => exact absurd rfl h
  | cons a t =>
    rcases foldl_min_mem t a with h2 | h2
    · exact List.mem_cons.mpr (Or.inl h2)
    · exact List.mem_cons.mpr (Or.inr h2)

lemma foldl_max_init_le (xs : List ℚ) : ∀ a : ℚ, a ≤ xs.foldl max a := by
  induction xs with
  | nil => intro a; simp
  | cons x t ih => intro a; exact le_trans (le_max_left a x) (ih (max a x))

lemma foldl_max_mem_le (xs : List ℚ) : ∀ (a x : ℚ), x ∈ xs → x ≤ xs.foldl max a := by
  induction xs with
  | nil => intro a x hx; cases hx
  | cons y t ih =>
    intro a x hx
    rcases List.mem_cons.mp hx with rfl | hx2
    · exact le_trans (le_max_right a x) (foldl_max_init_le t (max a x))
    · exact ih (max a y) x hx2

lemma foldl_max_mem (xs : List ℚ) : ∀ a : ℚ, xs.foldl max a = a ∨ xs.foldl max a ∈ xs := by
  induction xs with
  | nil => intro a; exact Or.inl rfl
  | cons y t ih =>
    intro a
    rcases ih (max a y) with h | h
    · rcases max_choice a y with h2 | h2
      · exact Or.inl (by simp only [List.foldl]; rw [h, h2])
      · exact Or.inr (List.mem_cons.mpr (Or.inl (by simp only [List.foldl]; rw [h, h2])))
    · exact Or.inr (List.mem_cons.mpr (Or.inr h))

lemma pyMax_le (l : List ℚ) (x : ℚ) (hx : x ∈ l) : x ≤ pyMax l := by
  cases l with
  | nil => cases hx
  | cons a t =>
    rcases List.mem_cons.mp hx with rfl | hx2
    · exact foldl_max_init_le t x
    · exact foldl_max_mem_le t a x hx2

lemma pyMax_mem (l : List ℚ) (h : l ≠ []) : pyMax l ∈ l := by
  cases l with
  | nil => exact absurd rfl h
  | cons a t =>
    rcases foldl_max_mem t a with h2 | h2
    · exact List.mem_cons.mpr (Or.inl h2)
    · exact List.mem_cons.mpr (Or.inr h2)

lemma mem_matchIndices {l : List ℚ} {m : ℚ} {i : ℕ} :
    i ∈ matchIndices l m ↔ l.get? i = some m := by
  constructor
  · intro h
    exact of_decide_eq_true (List.mem_filter.mp h).2
  · intro h
    refine List.mem_filter.mpr ⟨List.mem_range.mpr ?_, decide_eq_true h⟩
    rcases List.get?_eq_some.mp h with ⟨hi, _⟩
    exact hi

lemma matchIndices_ne_nil {l : List ℚ} {m : ℚ} (h : m ∈ l) : matchIndices l m ≠ [] := by
  rcases List.mem_iff_get?.mp h with ⟨i, hi⟩
  exact List.ne_nil_of_mem (mem_matchIndices.mpr hi)

lemma matchIndices_pairwise (l : List ℚ) (m : ℚ) : (matchIndices l m).Pairwise (· < ·) :=
  (List.pairwise_lt_range l.length).filter _

lemma getLastD_mem {l : List ℕ} (h : l ≠ []) (d : ℕ) : l.getLastD d ∈ l := by
  rw [List.getLastD_eq_getLast?, List.getLast?_eq_getLast l h, Option.getD_some]
  exact List.getLast_mem h

lemma mem_le_getLastD {l : List ℕ} (hp : l.Pairwise (· < ·)) {x : ℕ} (hx : x ∈ l) (d : ℕ) :
    x ≤ l.getLastD d := by
  induction l generalizing d with
  | nil => cases hx
  | cons a t ih =>
    rw [List.getLastD_cons]
    rcases List.mem_cons.mp hx with rfl | hx2
    · by_cases ht : t = []
      · subst ht; simp
      · exact le_of_lt ((List.pairwise_cons.mp hp).1 _ (getLastD_mem ht x))
    · exact ih (List.pairwise_cons.mp hp).2 hx2 a

lemma find_min_cons_eq (a : ℚ) (t : List ℚ) :
    find_min (a :: t) =
      (if (matchIndices (a :: t) (pyMin (a :: t))).length < 2 then
        match (matchIndices (a :: t) (pyMin (a :: t))).head? with
        | some i => some (pyMin (a :: t), i)
        | none => none
      else some (pyMin (a :: t), (matchIndices (a :: t) (pyMin (a :: t))).getLastD 0)) := rfl

lemma find_max_cons_eq (a : ℚ) (t : List ℚ) :
    find_max (a :: t) =
      (if (matchIndices (a :: t) (pyMax (a :: t))).length < 2 then
        match (matchIndices (a :: t) (pyMax (a :: t))).head? with
        | some i => some (pyMax (a :: t), i)
        | none => none
      else some (pyMax (a :: t), (matchIndices (a :: t) (pyMax (a :: t))).getLastD 0)) := rfl

/-- Characterisation of `find_min` on a non-empty list: it returns the
minimum paired with the last index holding it. -/
lemma find_min_spec (l : List ℚ) (h : l ≠ []) :
    ∃ m i, find_min l = some (m, i) ∧ m ∈ l ∧ (∀ x ∈ l, m ≤ x) ∧
      l.get? i = some m ∧ ∀ j, l.get? j = some m → j ≤ i := by
  cases l with
  | nil => exact absurd rfl h
  | cons a t =>
    have hmem : pyMin (a :: t) ∈ a :: t := pyMin_mem _ (by simp)
    have hMne : matchIndices (a :: t) (pyMin (a :: t)) ≠ [] := matchIndices_ne_nil hmem
    by_cases hlen : (matchIndices (a :: t) (pyMin (a :: t))).length < 2
    · have h1 : (matchIndices (a :: t) (pyMin (a :: t))).length = 1 := by
        have := List.length_pos.mpr hMne
        omega
      obtain ⟨c, hc⟩ := List.length_eq_one.mp h1
      refine ⟨pyMin (a :: t), c, ?_, hmem, fun x hx => pyMin_le _ x hx, ?_, ?_⟩
      · rw [find_min_cons_eq, if_pos hlen, hc]; rfl
      · exact mem_matchIndices.mp (hc ▸ List.mem_cons_self c [])
      · intro j hj
        have hjM := mem_matchIndices.mpr hj
        rw [hc] at hjM
        rcases List.mem_cons.mp hjM with rfl | h2
        · exact le_refl j
        · cases h2
    · refine ⟨pyMin (a :: t), (matchIndices (a :: t) (pyMin (a :: t))).getLastD 0, ?_, hmem,
        fun x hx => pyMin_le _ x hx, ?_, ?_⟩
      · rw [find_min_cons_eq, if_neg hlen]
      · exact mem_matchIndices.mp (getLastD_mem hMne 0)
      · intro j hj
        exact mem_le_getLastD (matchIndices_pairwise _ _) (mem_matchIndices.mpr hj) 0

/-- Characterisation of `find_max` on a non-empty list: it returns the
maximum paired with the last index holding it. -/
lemma find_max_spec (l : List ℚ) (h : l ≠ []) :
    ∃ m i, find_max l = some (m, i) ∧ m ∈ l ∧ (∀ x ∈ l, x ≤ m) ∧
      l.get? i = some m ∧ ∀ j, l.get? j = some m → j ≤ i := by
  cases l with
  | nil => exact absurd rfl h
  | cons a t =>
    have hmem : pyMax (a :: t) ∈ a :: t := pyMax_mem _ (by simp)
    have hMne : matchIndices (a :: t) (pyMax (a :: t)) ≠ [] := matchIndices_ne_nil hmem
    by_cases hlen : (matchIndices (a :: t) (pyMax (a :: t))).length < 2
    · have h1 : (matchIndices (a :: t) (pyMax (a :: t))).length = 1 := by
        have := List.length_pos.mpr hMne
        omega
      obtain ⟨c, hc⟩ := List.length_eq_one.mp h1
      refine ⟨pyMax (a :: t), c, ?_, hmem, fun x hx => pyMax_le _ x hx, ?_, ?_⟩
      · rw [find_max_cons_eq, if_pos hlen, hc]; rfl
      · exact mem_matchIndices.mp (hc ▸ List.mem_cons_self c [])
      · intro j hj
        have hjM := mem_matchIndices.mpr hj
        rw [hc] at hjM
        rcases List.mem_cons.mp hjM with rfl | h2
        · exact le_refl j
        · cases h2
    · refine ⟨pyMax (a :: t), (matchIndices (a :: t) (pyMax (a :: t))).getLastD 0, ?_, hmem,
        fun x hx => pyMax_le _ x hx, ?_, ?_⟩
      · rw [find_max_cons_eq, if_neg hlen]
      · exact mem_matchIndices.mp (getLastD_mem hMne 0)
      · intro j hj
        exact mem_le_getLastD (matchIndices_pairwise _ _) (mem_matchIndices.mpr hj) 0

/-! ## Lemmas about date parsing -/

lemma list_len10 {α : Type} (l : List α) (h : l.length = 10) :
    ∃ c0 c1 c2 c3 c4 c5 c6 c7 c8 c9, l = [c0, c1, c2, c3, c4, c5, c6, c7, c8, c9] := by
  rcases l with _ | ⟨c0, _ | ⟨c1, _ | ⟨c2, _ | ⟨c3, _ | ⟨c4, _ | ⟨c5, _ | ⟨c6, _ | ⟨c7,
    _ | ⟨c8, _ | ⟨c9, _ | ⟨c10, t⟩⟩⟩⟩⟩⟩⟩⟩⟩⟩⟩ <;>
    simp only [List.length] at h <;> try omega
  exact ⟨c0, c1, c2, c3, c4, c5, c6, c7, c8, c9, rfl⟩

lemma parseISOChars_eq10 (c0 c1 c2 c3 c4 c5 c6 c7 c8 c9 : Char) :
    parseISOChars [c0, c1, c2, c3, c4, c5, c6, c7, c8, c9] =
      (if (c0.isDigit && c1.isDigit && c2.isDigit && c3.isDigit && c4 == '-' &&
           c5.isDigit && c6.isDigit && c7 == '-' && c8.isDigit && c9.isDigit) = true then
        if 1 ≤ digitVal c0 * 1000 + digitVal c1 * 100 + digitVal c2 * 10 + digitVal c3 ∧
           1 ≤ digitVal c5 * 10 + digitVal c6 ∧ digitVal c5 * 10 + digitVal c6 ≤ 12 ∧
           1 ≤ digitVal c8 * 10 + digitVal c9 ∧
           digitVal c8 * 10 + digitVal c9 ≤
             daysInMonth (digitVal c0 * 1000 + digitVal c1 * 100 + digitVal c2 * 10 + digitVal c3)
               (digitVal c5 * 10 + digitVal c6) then
          some (digitVal c0 * 1000 + digitVal c1 * 100 + digitVal c2 * 10 + digitVal c3,
            digitVal c5 * 10 + digitVal c6, digitVal c8 * 10 + digitVal c9)
        else none
      else none) := rfl

/-- A well-formed calendar date string is accepted by the parser and
rendered in the `%A %d %B %Y` shape built from its digit fields. The
converse direction is false of the program: `parseISODate` also accepts
date-plus-time strings (see `convert_date_accepts_datetime_counterexample`). -/
lemma wf_convert_date (s : String) (hwf : isWellFormedISO s) :
    convert_date s = some (weekdayNames.getD (dayOfWeek (isoYearOf s) (isoMonthOf s) (isoDayOf s)) "" ++
      " " ++ pad2 (isoDayOf s) ++ " " ++ monthNames.getD (isoMonthOf s - 1) "" ++ " " ++
      pad4 (isoYearOf s)) := by
  obtain ⟨hlen, hdig, hh4, hh7, hy, hm1, hm12, hd1, hdm⟩ := hwf
  have hlen2 : s.data.length = 10 := hlen
  obtain ⟨c0, c1, c2, c3, c4, c5, c6, c7, c8, c9, hdata⟩ := list_len10 s.data hlen2
  have ey : isoYearOf s = digitVal c0 * 1000 + digitVal c1 * 100 + digitVal c2 * 10 + digitVal c3 := by
    rw [isoYearOf, hdata]; rfl
  have em : isoMonthOf s = digitVal c5 * 10 + digitVal c6 := by
    rw [isoMonthOf, hdata]; rfl
  have ed : isoDayOf s = digitVal c8 * 10 + digitVal c9 := by
    rw [isoDayOf, hdata]; rfl
  rw [ey] at hy hdm
  rw [em] at hm1 hm12 hdm
  rw [ed] at hd1 hdm
  have h0 : c0.isDigit = true := by have := hdig 0 (by simp); rwa [hdata] at this
  have h1 : c1.isDigit = true := by have := hdig 1 (by simp); rwa [hdata] at this
  have h2 : c2.isDigit = true := by have := hdig 2 (by simp); rwa [hdata] at this
  have h3 : c3.isDigit = true := by have := hdig 3 (by simp); rwa [hdata] at this
  have h5 : c5.isDigit = true := by have := hdig 5 (by simp); rwa [hdata] at this
  have h6 : c6.isDigit = true := by have := hdig 6 (by simp); rwa [hdata] at this
  have h8 : c8.isDigit = true := by have := hdig 8 (by simp); rwa [hdata] at this
  have h9 : c9.isDigit = true := by have := hdig 9 (by simp); rwa [hdata] at this
  have hc4 : c4 = '-' := by rwa [hdata] at hh4
  have hc7 : c7 = '-' := by rwa [hdata] at hh7
  unfold convert_date parseISODate
  rw [hdata, parseISOChars_eq10, if_pos, if_pos]
  · simp only [Option.map_some']
    rw [← ey, ← em, ← ed]
  · exact ⟨hy, hm1, hm12, hd1, hdm⟩
  · simp [h0, h1, h2, h3, h5, h6, h8, h9, hc4, hc7]

/-! ## Lemmas about rounding -/

lemma roundHalfEven_eq (q : ℚ) :
    roundHalfEven q =
      (if q - ⌊q⌋ < 1/2 then ⌊q⌋
       else if (1:ℚ)/2 < q - ⌊q⌋ then ⌊q⌋ + 1
       else if ⌊q⌋ % 2 = 0 then ⌊q⌋ else ⌊q⌋ + 1) := rfl

lemma abs_roundHalfEven_sub (q : ℚ) : |(roundHalfEven q : ℚ) - q| ≤ 1/2 := by
  have h1 : (⌊q⌋ : ℚ) ≤ q := Int.floor_le q
  have h2 : q < ⌊q⌋ + 1 := Int.lt_floor_add_one q
  rw [roundHalfEven_eq]
  split_ifs with hc1 hc2 hc3 <;>
    (rw [abs_le]; push_cast; constructor <;> linarith)

/-! ## Lemmas about string building -/

lemma str_foldl_append (bs : List String) : ∀ a b : String,
    List.foldl (fun r s => r ++ s) (a ++ b) bs = a ++ List.foldl (fun r s => r ++ s) b bs := by
  induction bs with
  | nil => intro a b; rfl
  | cons x t ih =>
    intro a b
    simp only [List.foldl_cons]
    rw [String.append_assoc]
    exact ih a (b ++ x)

lemma str_join_cons (b : String) (bs : List String) :
    String.join (b :: bs) = b ++ String.join bs := by
  show List.foldl (fun r s => r ++ s) ("" ++ b) bs = b ++ List.foldl (fun r s => r ++ s) "" bs
  rw [String.empty_append]
  rw [show List.foldl (fun r s => r ++ s) b bs =
        List.foldl (fun r s => r ++ s) (b ++ "") bs from by rw [String.append_empty]]
  exact str_foldl_append bs b ""

lemma daily_foldlM (l : List WeatherRecord) : ∀ (acc : String) (bs : List String),
    l.mapM dailyBlock = some bs →
    l.foldlM (fun acc r => (dailyBlock r).map (fun b => acc ++ b)) acc =
      some (acc ++ String.join bs) := by
  induction l with
  | nil =>
    intro acc bs h
    simp only [List.mapM_nil, pure, Option.some.injEq] at h
    subst h
    simp [String.join, String.append_empty]
  | cons r t ih =>
    intro acc bs h
    simp only [List.mapM_cons] at h
    rcases hb : dailyBlock r with _ | b
    · rw [hb] at h; simp at h
    · rw [hb] at h
      rcases ht : t.mapM dailyBlock with _ | bs'
      · rw [ht] at h; simp at h
      · rw [ht] at h
        simp only [Option.bind_eq_bind, Option.some_bind, Option.pure_def,
          Option.some.injEq] at h
        subst h
        simp only [List.foldlM_cons, hb, Option.map_some', Option.bind_eq_bind,
          Option.some_bind]
        rw [ih (acc ++ b) bs' ht, str_join_cons, String.append_assoc]

/-! ## Lemmas about the loader -/

lemma parseRow_inv (row : List String) (rec : WeatherRecord)
    (h : parseRow row = some rec) : RowParses row rec := by
  unfold parseRow at h
  rcases h0 : row.get? 0 with _ | d <;> rw [h0] at h <;>
    rcases h1 : (row.get? 1).bind parseFloat with _ | mn <;> rw [h1] at h <;>
    rcases h2 : (row.get? 2).bind parseFloat with _ | mx <;> rw [h2] at h
  all_goals try exact Option.noConfusion h
  cases h
  exact ⟨h0, h1, h2⟩

lemma parseRow_none_of_bad (row : List String)
    (hbad : (row.get? 1).bind parseFloat = none ∨ (row.get? 2).bind parseFloat = none) :
    parseRow row = none := by
  unfold parseRow
  rcases h0 : row.get? 0 with _ | d <;>
    rcases h1 : (row.get? 1).bind parseFloat with _ | mn <;>
    rcases h2 : (row.get? 2).bind parseFloat with _ | mx <;>
    try rfl
  rcases hbad with hb | hb
  · rw [hb] at h1; exact Option.noConfusion h1
  · rw [hb] at h2; exact Option.noConfusion h2

lemma loadRows_forall2 (rest : List (List String)) : ∀ out, loadRows rest = some out →
    List.Forall₂ RowParses (rest.filter (fun r => !r.isEmpty)) out := by
  induction rest with
  | nil =>
    intro out h
    cases h
    exact List.Forall₂.nil
  | cons row t ih =>
    intro out h
    unfold loadRows at h
    by_cases he : row.isEmpty = true
    · rw [if_pos he] at h
      rw [List.filter_cons_of_neg (by simp [he])]
      exact ih out h
    · rw [if_neg he] at h
      rcases hp : parseRow row with _ | r <;> rw [hp] at h
      · exact Option.noConfusion h
      · rcases hl : loadRows t with _ | out' <;> rw [hl] at h
        · exact Option.noConfusion h
        · cases h
          rw [List.filter_cons_of_pos (by simp [he])]
          exact List.Forall₂.cons (parseRow_inv row r hp) (ih out' hl)

lemma loadRows_none_of_bad (rest : List (List String))
    (hbad : ∃ row ∈ rest, row ≠ [] ∧
      ((row.get? 1).bind parseFloat = none ∨ (row.get? 2).bind parseFloat = none)) :
    loadRows rest = none := by
  induction rest with
  | nil =>
    rcases hbad with ⟨row, hmem, _⟩
    cases hmem
  | cons row t ih =>
    rcases hbad with ⟨row', hmem, hne, hb⟩
    unfold loadRows
    rcases List.mem_cons.mp hmem with rfl | hmem2
    · have he : row'.isEmpty = false := by
        rcases row' with _ | ⟨a, t2⟩
        · exact absurd rfl hne
        · rfl
      rw [he]
      simp only [Bool.false_eq_true, if_false]
      rw [parseRow_none_of_bad row' hb]
    · by_cases he : row.isEmpty = true
      · rw [if_pos he]
        exact ih ⟨row', hmem2, hne, hb⟩
      · rw [if_neg he]
        rcases hp : parseRow row with _ | r
        · rfl
        · rw [ih ⟨row', hmem2, hne, hb⟩]
          rfl

/-! ## Lemmas about the period summary -/

lemma generate_summary_inv (data : List WeatherRecord) (s : String)
    (h : generate_summary data = some s) :
    ∃ mv mi xv xi rmin rmax dmin dmax am ax,
      find_min (data.map fun r => r.2.1) = some (mv, mi) ∧
      find_max (data.map fun r => r.2.2) = some (xv, xi) ∧
      data.get? mi = some rmin ∧ convert_date rmin.1 = some dmin ∧
      data.get? xi = some rmax ∧ convert_date rmax.1 = some dmax ∧
      calculate_mean (data.map fun r => r.2.1) = some am ∧
      calculate_mean (data.map fun r => r.2.2) = some ax ∧
      s = summaryTemplate data.length mv dmin xv dmax am ax := by
  simp only [generate_summary] at h
  rcases hfm : find_min (data.map fun r => r.2.1) with _ | ⟨mv, mi⟩ <;> rw [hfm] at h <;>
    (try dsimp only at h)
  · exact Option.noConfusion h
  rcases hfx : find_max (data.map fun r => r.2.2) with _ | ⟨xv, xi⟩ <;> rw [hfx] at h <;>
    (try dsimp only at h)
  · exact Option.noConfusion h
  rcases hgm : data.get? mi with _ | rmin <;> rw [hgm] at h <;> (try dsimp only at h)
  · exact Option.noConfusion h
  rcases hgx : data.get? xi with _ | rmax <;> rw [hgx] at h <;> (try dsimp only at h)
  · exact Option.noConfusion h
  rcases hdm : convert_date rmin.1 with _ | dmin <;> rw [hdm] at h <;> (try dsimp only at h)
  · exact Option.noConfusion h
  rcases hdx : convert_date rmax.1 with _ | dmax <;> rw [hdx] at h <;> (try dsimp only at h)
  · exact Option.noConfusion h
  rcases ham : calculate_mean (data.map fun r => r.2.1) with _ | am <;> rw [ham] at h <;>
    (try dsimp only at h)
  · exact Option.noConfusion h
  rcases hax : calculate_mean (data.map fun r => r.2.2) with _ | ax <;> rw [hax] at h <;>
    (try dsimp only at h)
  · exact Option.noConfusion h
  cases h
  exact ⟨mv, mi, xv, xi, rmin, rmax, dmin, dmax, am, ax, hfm, hfx, hgm, hdm, hgx, hdx,
    ham, hax, rfl⟩

lemma showFloat1_41 : showFloat1 (convert_f_to_c 41) = "5.0" := by
  rw [show convert_f_to_c 41 = 5 from by norm_num [convert_f_to_c, pyRound1, roundHalfEven],
      showFloat1, show ⌊(5:ℚ) * 10⌋ = 50 from by norm_num]
  rfl

lemma showFloat1_68 : showFloat1 (convert_f_to_c 68) = "20.0" := by
  rw [show convert_f_to_c 68 = 20 from by norm_num [convert_f_to_c, pyRound1, roundHalfEven],
      showFloat1, show ⌊(20:ℚ) * 10⌋ = 200 from by norm_num]
  rfl

lemma showFloat1_avgLow : showFloat1 (convert_f_to_c (258/5)) = "10.9" := by
  rw [show convert_f_to_c (258/5) = 109/10 from by
        norm_num [convert_f_to_c, pyRound1, roundHalfEven],
      showFloat1, show ⌊(109:ℚ)/10 * 10⌋ = 109 from by norm_num]
  rfl

lemma showFloat1_avgHigh : showFloat1 (convert_f_to_c (321/5)) = "17.9" := by
  rw [show convert_f_to_c (321/5) = 179/10 from by
        norm_num [convert_f_to_c, pyRound1, roundHalfEven],
      showFloat1, show ⌊(179:ℚ)/10 * 10⌋ = 179 from by norm_num]
  rfl

set_option maxRecDepth 4000 in
lemma c2_concrete :
    generate_summary [("2021-07-02", 49, 67), ("2021-07-03", 57, 68), ("2021-07-04", 56, 62),
        ("2021-07-05", 55, 61), ("2021-07-06", 41, 63)] =
      some ("5 Day Overview\n  The lowest temperature will be 5.0°C, and will occur on Tuesday 06 July 2021.\n  The highest temperature will be 20.0°C, and will occur on Saturday 03 July 2021.\n  The average low this week is 10.9°C.\n  The average high this week is 17.9°C.\n") := by
  have hfm : find_min [(49:ℚ), 57, 56, 55, 41] = some (41, 4) := by decide
  have hfx : find_max [(67:ℚ), 68, 62, 61, 63] = some (68, 1) := by decide
  have ham : calculate_mean [(49:ℚ), 57, 56, 55, 41] = some (258/5) := by
    show some (([(49:ℚ), 57, 56, 55, 41]).sum / ([(49:ℚ), 57, 56, 55, 41]).length) = some (258/5)
    norm_num [List.sum_cons]
  have hax : calculate_mean [(67:ℚ), 68, 62, 61, 63] = some (321/5) := by
    show some (([(67:ℚ), 68, 62, 61, 63]).sum / ([(67:ℚ), 68, 62, 61, 63]).length) = some (321/5)
    norm_num [List.sum_cons]
  simp only [generate_summary]
  rw [show (List.map (fun r => r.2.1) [("2021-07-02", (49:ℚ), (67:ℚ)), ("2021-07-03", 57, 68),
        ("2021-07-04", 56, 62), ("2021-07-05", 55, 61), ("2021-07-06", 41, 63)]) =
      [(49:ℚ), 57, 56, 55, 41] from rfl,
      show (List.map (fun r => r.2.2) [("2021-07-02", (49:ℚ), (67:ℚ)), ("2021-07-03", 57, 68),
        ("2021-07-04", 56, 62), ("2021-07-05", 55, 61), ("2021-07-06", 41, 63)]) =
      [(67:ℚ), 68, 62, 61, 63] from rfl]
  rw [hfm, hfx]
  dsimp only
  rw [show ([("2021-07-02", (49:ℚ), (67:ℚ)), ("2021-07-03", 57, 68), ("2021-07-04", 56, 62),
        ("2021-07-05", 55, 61), ("2021-07-06", 41, 63)].get? 4) =
      some ("2021-07-06", (41:ℚ), (63:ℚ)) from rfl,
      show ([("2021-07-02", (49:ℚ), (67:ℚ)), ("2021-07-03", 57, 68), ("2021-07-04", 56, 62),
        ("2021-07-05", 55, 61), ("2021-07-06", 41, 63)].get? 1) =
      some ("2021-07-03", (57:ℚ), (68:ℚ)) from rfl]
  dsimp only
  rw [show convert_date "2021-07-06" = some "Tuesday 06 July 2021" from by decide,
      show convert_date "2021-07-03" = some "Saturday 03 July 2021" from by decide,
      ham, hax]
  dsimp only
  rw [summaryTemplate, showFloat1_41, showFloat1_68, showFloat1_avgLow, showFloat1_avgHigh]
  rfl

/-! ## Claim theorems -/

/-- **C1.** For every non-empty sequence of numbers, `find_min` returns
the minimum value paired with the greatest index holding it and `find_max`
the maximum value paired with the greatest index holding it (last-
occurrence tie-break); in particular `find_min [40.0, 40.0, 50.0]`
returns `(40.0, 1)`. -/
theorem findMin_findMax_last_occurrence :
    (∀ l : List ℚ, l ≠ [] → ∃ m i, find_min l = some (m, i) ∧ m ∈ l ∧ (∀ x ∈ l, m ≤ x) ∧
      l.get? i = some m ∧ ∀ j, l.get? j = some m → j ≤ i) ∧
    (∀ l : List ℚ, l ≠ [] → ∃ m i, find_max l = some (m, i) ∧ m ∈ l ∧ (∀ x ∈ l, x ≤ m) ∧
      l.get? i = some m ∧ ∀ j, l.get? j = some m → j ≤ i) ∧
    find_min [40, 40, 50] = some (40, 1) :=
  ⟨find_min_spec, find_max_spec, by decide⟩

/-- Witness for C1 at the concrete tie-break input `[40.0, 40.0, 50.0]`. -/
theorem findMin_findMax_last_occurrence_witness :
    ∃ m i, find_min [40, 40, 50] = some (m, i) ∧ m ∈ [(40:ℚ), 40, 50] ∧
      (∀ x ∈ [(40:ℚ), 40, 50], m ≤ x) ∧ [(40:ℚ), 40, 50].get? i = some m ∧
      ∀ j, [(40:ℚ), 40, 50].get? j = some m → j ≤ i :=
  findMin_findMax_last_occurrence.1 [40, 40, 50] (by simp)

/-- **C2.** On the five-day reference dataset `generate_summary` reports
the lowest temperature 5.0°C on "Tuesday 06 July 2021"; and every
successful summary is assembled from `find_min` over the min-temperature
column, `find_max` over the max-temperature column, the mean of each
column, and the dates of the records at the returned indices. -/
theorem generate_summary_columns_and_end_to_end :
    generate_summary [("2021-07-02", 49, 67), ("2021-07-03", 57, 68), ("2021-07-04", 56, 62),
        ("2021-07-05", 55, 61), ("2021-07-06", 41, 63)] =
      some ("5 Day Overview\n  The lowest temperature will be 5.0°C, and will occur on Tuesday 06 July 2021.\n  The highest temperature will be 20.0°C, and will occur on Saturday 03 July 2021.\n  The average low this week is 10.9°C.\n  The average high this week is 17.9°C.\n") ∧
    (∀ data s, generate_summary data = some s →
      ∃ mv mi xv xi rmin rmax dmin dmax am ax,
        find_min (data.map fun r => r.2.1) = some (mv, mi) ∧
        find_max (data.map fun r => r.2.2) = some (xv, xi) ∧
        data.get? mi = some rmin ∧ convert_date rmin.1 = some dmin ∧
        data.get? xi = some rmax ∧ convert_date rmax.1 = some dmax ∧
        calculate_mean (data.map fun r => r.2.1) = some am ∧
        calculate_mean (data.map fun r => r.2.2) = some ax ∧
        s = summaryTemplate data.length mv dmin xv dmax am ax) :=
  ⟨c2_concrete, generate_summary_inv⟩

/-- Witness for C2 at the five-day reference dataset. -/
theorem generate_summary_columns_and_end_to_end_witness :
    ∃ mv mi xv xi rmin rmax dmin dmax am ax,
      find_min (([("2021-07-02", 49, 67), ("2021-07-03", 57, 68), ("2021-07-04", 56, 62),
          ("2021-07-05", 55, 61), ("2021-07-06", 41, 63)] : List WeatherRecord).map
            fun r => r.2.1) = some (mv, mi) ∧
      find_max (([("2021-07-02", 49, 67), ("2021-07-03", 57, 68), ("2021-07-04", 56, 62),
          ("2021-07-05", 55, 61), ("2021-07-06", 41, 63)] : List WeatherRecord).map
            fun r => r.2.2) = some (xv, xi) ∧
      ([("2021-07-02", 49, 67), ("2021-07-03", 57, 68), ("2021-07-04", 56, 62),
          ("2021-07-05", 55, 61), ("2021-07-06", 41, 63)] : List WeatherRecord).get? mi =
        some rmin ∧ convert_date rmin.1 = some dmin ∧
      ([("2021-07-02", 49, 67), ("2021-07-03", 57, 68), ("2021-07-04", 56, 62),
          ("2021-07-05", 55, 61), ("2021-07-06", 41, 63)] : List WeatherRecord).get? xi =
        some rmax ∧ convert_date rmax.1 = some dmax ∧
      calculate_mean (([("2021-07-02", 49, 67), ("2021-07-03", 57, 68), ("2021-07-04", 56, 62),
          ("2021-07-05", 55, 61), ("2021-07-06", 41, 63)] : List WeatherRecord).map
            fun r => r.2.1) = some am ∧
      calculate_mean (([("2021-07-02", 49, 67), ("2021-07-03", 57, 68), ("2021-07-04", 56, 62),
          ("2021-07-05", 55, 61), ("2021-07-06", 41, 63)] : List WeatherRecord).map
            fun r => r.2.2) = some ax ∧
      ("5 Day Overview\n  The lowest temperature will be 5.0°C, and will occur on Tuesday 06 July 2021.\n  The highest temperature will be 20.0°C, and will occur on Saturday 03 July 2021.\n  The average low this week is 10.9°C.\n  The average high this week is 17.9°C.\n") =
        summaryTemplate ([("2021-07-02", 49, 67), ("2021-07-03", 57, 68),
          ("2021-07-04", 56, 62), ("2021-07-05", 55, 61),
          ("2021-07-06", 41, 63)] : List WeatherRecord).length mv dmin xv dmax am ax :=
  generate_summary_columns_and_end_to_end.2 _ _ generate_summary_columns_and_end_to_end.1

/-- **C3.** `convert_f_to_c` computes `(v - 32) * 5/9` rounded to one
decimal place: the result is an integer number of tenths within half a
tenth of the exact value, and `convert_f_to_c 32 = 0.0`,
`convert_f_to_c 212 = 100.0`, `convert_f_to_c 98.6 = 37.0`. -/
theorem convert_f_to_c_rounds_to_one_decimal :
    (∀ v : ℚ, ∃ t : ℤ, convert_f_to_c v = (t : ℚ) / 10 ∧
      |convert_f_to_c v - (v - 32) * 5 / 9| ≤ 1 / 20) ∧
    convert_f_to_c 32 = 0 ∧ convert_f_to_c 212 = 100 ∧ convert_f_to_c (493/5) = 37 := by
  refine ⟨fun v => ⟨roundHalfEven ((v - 32) * (5/9) * 10), rfl, ?_⟩,
    by norm_num [convert_f_to_c, pyRound1, roundHalfEven],
    by norm_num [convert_f_to_c, pyRound1, roundHalfEven],
    by norm_num [convert_f_to_c, pyRound1, roundHalfEven]⟩
  have h := abs_roundHalfEven_sub ((v - 32) * (5/9) * 10)
  have e : convert_f_to_c v - (v - 32) * 5 / 9 =
      ((roundHalfEven ((v - 32) * (5/9) * 10) : ℚ) - (v - 32) * (5/9) * 10) / 10 := by
    show (roundHalfEven ((v - 32) * (5/9) * 10) : ℚ) / 10 - (v - 32) * 5 / 9 = _
    ring
  rw [e, abs_div]
  rw [show |(10:ℚ)| = 10 by norm_num]
  linarith

/-- **C4.** `find_min` and `find_max` return the absent result on the
empty sequence, while `calculate_mean` fails on it: the division by zero
is a detectable error, never a silent NaN/Inf value. -/
theorem empty_input_aggregation_behaviour :
    find_min [] = none ∧ find_max [] = none ∧ calculate_mean [] = none :=
  ⟨rfl, rfl, rfl⟩

/-- **C5.** `generate_summary` on the empty dataset fails — no partial
report string is produced — and the failure originates in the aggregation:
`find_min` of the empty min-temperature column is the absent result. -/
theorem generate_summary_empty_dataset_fails :
    generate_summary [] = none ∧
    find_min (([] : List WeatherRecord).map fun r => r.2.1) = none :=
  ⟨rfl, rfl⟩

/-- **C6.** `generate_daily_summary` concatenates, in input order, one
block per record (dated header line, minimum- and maximum-temperature
lines in Celsius with the °C suffix, blank line); the empty dataset yields
the empty string with no error. -/
theorem generate_daily_summary_concatenates_blocks :
    generate_daily_summary [] = some "" ∧
    (∀ l bs, l.mapM dailyBlock = some bs →
      generate_daily_summary l = some (String.join bs)) ∧
    generate_daily_summary [("2021-07-06", 41, 63)] =
      some "---- Tuesday 06 July 2021 ----\n  Minimum Temperature: 5.0°C\n  Maximum Temperature: 17.2°C\n\n" := by
  refine ⟨rfl, ?_, ?_⟩
  · intro l bs h
    rw [generate_daily_summary, daily_foldlM l "" bs h, String.empty_append]
  · have h41 : showFloat1 (convert_f_to_c 41) = "5.0" := showFloat1_41
    have h63 : showFloat1 (convert_f_to_c 63) = "17.2" := by
      rw [show convert_f_to_c 63 = 86/5 from by norm_num [convert_f_to_c, pyRound1, roundHalfEven],
          showFloat1, show ⌊(86:ℚ)/5 * 10⌋ = 172 from by norm_num]
      rfl
    have hblock : dailyBlock ("2021-07-06", 41, 63) =
        some "---- Tuesday 06 July 2021 ----\n  Minimum Temperature: 5.0°C\n  Maximum Temperature: 17.2°C\n\n" := by
      rw [dailyBlock]
      rw [show convert_date "2021-07-06" = some "Tuesday 06 July 2021" from by decide]
      simp only [Option.map_some']
      rw [h41, h63]
      rfl
    rw [generate_daily_summary]
    simp only [List.foldlM_cons, hblock, Option.map_some', Option.bind_eq_bind,
      Option.some_bind, List.foldlM_nil]
    rfl

/-- Witness for C6: the block-concatenation conjunct applied to the empty
record list. -/
theorem generate_daily_summary_concatenates_blocks_witness :
    generate_daily_summary [] = some (String.join []) :=
  generate_daily_summary_concatenates_blocks.2.1 [] [] rfl

/-- **C7 (counterexample).** The claim "for every input that is not a
well-formed ISO date, `convert_date` fails" is false of the program:
`datetime.fromisoformat` also accepts date-plus-time strings, so
`convert_date "2021-07-06T00:00:00"`, whose argument is not a well-formed
ISO calendar date, succeeds and formats the date part. -/
theorem convert_date_accepts_datetime_counterexample :
    ¬ isWellFormedISO "2021-07-06T00:00:00" ∧
    convert_date "2021-07-06T00:00:00" = some "Tuesday 06 July 2021" :=
  ⟨by decide, by decide⟩

/-- **C7 (amended).** Every well-formed ISO calendar date string
`YYYY-MM-DD` is rendered as "<full weekday name> <zero-padded day>
<full month name> <4-digit year>" with English names, and
`convert_date "2021-07-06" = "Tuesday 06 July 2021"`; but not every other
input fails: `fromisoformat` also accepts date-plus-time strings such as
"2021-07-06T00:00:00", rendered by their date part, while inputs its
grammar rejects — "garbage", "2021-13-01", "2021-02-29" — do fail. -/
theorem convert_date_format_and_validation :
    (∀ s, isWellFormedISO s →
      convert_date s = some (weekdayNames.getD
          (dayOfWeek (isoYearOf s) (isoMonthOf s) (isoDayOf s)) "" ++ " " ++
        pad2 (isoDayOf s) ++ " " ++ monthNames.getD (isoMonthOf s - 1) "" ++ " " ++
        pad4 (isoYearOf s))) ∧
    convert_date "2021-07-06" = some "Tuesday 06 July 2021" ∧
    convert_date "2021-07-06T00:00:00" = some "Tuesday 06 July 2021" ∧
    convert_date "garbage" = none ∧
    convert_date "2021-13-01" = none ∧
    convert_date "2021-02-29" = none :=
  ⟨wf_convert_date, by decide, by decide, by decide, by decide, by decide⟩

/-- Witness for C7: the format conjunct applied at "2021-07-06". -/
theorem convert_date_format_and_validation_witness :
    convert_date "2021-07-06" = some (weekdayNames.getD
        (dayOfWeek (isoYearOf "2021-07-06") (isoMonthOf "2021-07-06")
          (isoDayOf "2021-07-06")) "" ++ " " ++
      pad2 (isoDayOf "2021-07-06") ++ " " ++
      monthNames.getD (isoMonthOf "2021-07-06" - 1) "" ++ " " ++
      pad4 (isoYearOf "2021-07-06")) :=
  convert_date_format_and_validation.1 "2021-07-06" (by decide)

/-- **C8.** `load_data_from_csv` never includes the header row, skips
blank rows, and preserves the order of the remaining data rows: a
successful load corresponds row-for-row, in order, to the non-blank rows
after the header; a source with a blank trailing line yields no
corresponding empty record. -/
theorem load_data_skips_header_and_blanks :
    (∀ hdr rest out, load_data_from_csv (hdr :: rest) = some out →
      List.Forall₂ RowParses (rest.filter (fun r => !r.isEmpty)) out) ∧
    load_data_from_csv [["date", "min", "max"], ["2021-07-06", "41.0", "63.0"], []] =
      some [("2021-07-06", 41, 63)] := by
  constructor
  · intro hdr rest out h
    exact loadRows_forall2 rest out h
  · have h41 : parseFloat "41.0" = some 41 := by
      rw [show parseFloat "41.0" =
            some ((digitsVal ['4', '1'] : ℚ) + (digitsVal ['0'] : ℚ) / 10 ^ 1) from rfl,
          show digitsVal ['4', '1'] = 41 from rfl, show digitsVal ['0'] = 0 from rfl]
      norm_num
    have h63 : parseFloat "63.0" = some 63 := by
      rw [show parseFloat "63.0" =
            some ((digitsVal ['6', '3'] : ℚ) + (digitsVal ['0'] : ℚ) / 10 ^ 1) from rfl,
          show digitsVal ['6', '3'] = 63 from rfl, show digitsVal ['0'] = 0 from rfl]
      norm_num
    have hrow : parseRow ["2021-07-06", "41.0", "63.0"] = some ("2021-07-06", 41, 63) := by
      unfold parseRow
      rw [show (["2021-07-06", "41.0", "63.0"].get? 0) = some "2021-07-06" from rfl,
          show (["2021-07-06", "41.0", "63.0"].get? 1) = some "41.0" from rfl,
          show (["2021-07-06", "41.0", "63.0"].get? 2) = some "63.0" from rfl]
      rw [show (some "41.0").bind parseFloat = parseFloat "41.0" from rfl,
          show (some "63.0").bind parseFloat = parseFloat "63.0" from rfl, h41, h63]
    show loadRows [["2021-07-06", "41.0", "63.0"], []] = some [("2021-07-06", 41, 63)]
    unfold loadRows
    rw [show (["2021-07-06", "41.0", "63.0"] : List String).isEmpty = false from rfl]
    simp only [Bool.false_eq_true, if_false]
    rw [hrow]
    rfl

/-- Witness for C8: the correspondence conjunct at the concrete source
with a blank trailing line. -/
theorem load_data_skips_header_and_blanks_witness :
    List.Forall₂ RowParses
      (([["2021-07-06", "41.0", "63.0"], []] : List (List String)).filter
        (fun r => !r.isEmpty))
      [("2021-07-06", 41, 63)] :=
  load_data_skips_header_and_blanks.1 ["date", "min", "max"]
    [["2021-07-06", "41.0", "63.0"], []] [("2021-07-06", 41, 63)]
    load_data_skips_header_and_blanks.2

/-- **C9.** A source containing a data row whose minimum- or
maximum-temperature field does not convert to a number makes
`load_data_from_csv` fail, returning no partial dataset. -/
theorem load_data_fails_on_malformed_row :
    ∀ hdr rest, (∃ row ∈ rest, row ≠ [] ∧
        ((row.get? 1).bind parseFloat = none ∨ (row.get? 2).bind parseFloat = none)) →
      load_data_from_csv (hdr :: rest) = none := by
  intro hdr rest hbad
  exact loadRows_none_of_bad rest hbad

/-- Witness for C9 at a source whose single data row has a non-numeric
minimum temperature. -/
theorem load_data_fails_on_malformed_row_witness :
    load_data_from_csv [["date", "min", "max"], ["2021-07-06", "oops", "63.0"]] = none :=
  load_data_fails_on_malformed_row ["date", "min", "max"] [["2021-07-06", "oops", "63.0"]]
    ⟨["2021-07-06", "oops", "63.0"], by simp, by simp, Or.inl (by decide)⟩

/-- **C10.** A source with no rows at all (not even a header) fails, while
a source consisting of only a header row loads as the empty dataset. -/
theorem load_data_empty_source :
    load_data_from_csv [] = none ∧ ∀ hdr, load_data_from_csv [hdr] = some [] :=
  ⟨rfl, fun _ => rfl⟩

/-- Witness for C10: the header-only conjunct at a concrete header. -/
theorem load_data_empty_source_witness :
    load_data_from_csv [["date", "min", "max"]] = some [] :=
  load_data_empty_source.2 ["date", "min", "max"]

end Weather
